import Mathlib

/-!
Verification of the Socrates backend's test-classification pipeline.

Shallow embedding of the TypeScript services
`backend/src/services/errorParser.ts`, `backend/src/services/testClassifier.ts`
and `backend/src/services/codeWrapper.ts`.  Strings are Lean `String`s
(lists of characters); JavaScript `String.prototype.includes` becomes a
substring search; JS regular-expression matching is embedded as
deterministic matchers that replicate the leftmost-match, greedy and lazy
backtracking semantics of the specific patterns used by the code.
JS `toLowerCase`/`trim` are modelled with Lean's ASCII `Char.toLower` and
`String.trim`; all inputs of interest are ASCII.
-/

namespace Socrates

/-! ## Basic character and string utilities shared by the embedding -/

/-- JS `\s` whitespace class, restricted to its ASCII members
(space, tab, newline, carriage return, vertical tab, form feed). -/
def isSpaceChar (c : Char) : Bool :=
  c = ' ' || c = '\t' || c = '\n' || c = '\r' || c = '\x0b' || c = '\x0c'

/-- JS `\d` digit class. -/
def isDigitChar (c : Char) : Bool :=
  '0' ≤ c && c ≤ '9'

/-- JS `\w` word-character class `[A-Za-z0-9_]`. -/
def isWordChar (c : Char) : Bool :=
  ('a' ≤ c && c ≤ 'z') || ('A' ≤ c && c ≤ 'Z') || isDigitChar c || c = '_'

/-- Substring occurrence test on character lists:
`hasSub s pat = true` iff `pat` occurs contiguously inside `s`
(the empty pattern occurs everywhere, as with JS `includes`). -/
def hasSub (s pat : List Char) : Bool :=
  match s with
  | [] => pat.isEmpty
  | c :: rest => pat.isPrefixOf (c :: rest) || hasSub rest pat

/-- JS `String.prototype.includes`. -/
def strContains (s pat : String) : Bool :=
  hasSub s.data pat.data

/-- Index of the leftmost occurrence of `pat` in `s`
(JS `String.prototype.indexOf`, as an `Option`). -/
def firstOccIdx (s pat : List Char) (acc : Nat) : Option Nat :=
  match s with
  | [] => if pat.isEmpty then some acc else none
  | c :: rest =>
    if pat.isPrefixOf (c :: rest) then some acc else firstOccIdx rest pat (acc + 1)

/-- Leftmost occurrence index on strings. -/
def occIdx (s pat : String) : Option Nat :=
  firstOccIdx s.data pat.data 0

/-- Case-insensitive character comparison (ASCII). -/
def charEqCI (a b : Char) : Bool :=
  a.toLower = b.toLower

/-- Consume the literal `pat` case-insensitively at the head of `s`;
return the rest on success. -/
def dropLitCI (pat s : List Char) : Option (List Char) :=
  match pat, s with
  | [], s => some s
  | _ :: _, [] => none
  | p :: ps, c :: cs => if charEqCI p c then dropLitCI ps cs else none

/-- Greedy run of digits at the head of a character list. -/
def takeDigits (s : List Char) : List Char × List Char :=
  match s with
  | [] => ([], [])
  | c :: rest =>
    if isDigitChar c then
      let (ds, r) := takeDigits rest
      (c :: ds, r)
    else ([], s)

/-- Decimal value of a digit run (`parseInt(·, 10)` on a `\d+` capture). -/
def digitsToNat (ds : List Char) : Nat :=
  ds.foldl (fun a c => a * 10 + (c.toNat - '0'.toNat)) 0

/-- JS `String.prototype.toLowerCase` (ASCII range). -/
def toLowerStr (s : String) : String :=
  ⟨s.data.map Char.toLower⟩

/-- JS `String.prototype.trim`: strip leading and trailing whitespace. -/
def trimStr (s : String) : String :=
  ⟨((s.data.dropWhile isSpaceChar).reverse.dropWhile isSpaceChar).reverse⟩

/-- `split('\n')` on character lists; always returns at least one piece. -/
def splitOnNl : List Char → List (List Char)
  | [] => [[]]
  | c :: rest =>
    match splitOnNl rest with
    | [] => [[c]]
    | h :: t => if c = '\n' then [] :: h :: t else (c :: h) :: t

/-- JS `split('\n')` on strings. -/
def splitLinesStr (s : String) : List String :=
  (splitOnNl s.data).map String.mk

/-! ## errorParser.ts — `categorizeErrorType` -/

/-- The `ParsedError['type']` union from `errorParser.ts`.
Constructor names avoid Lean keywords: `synErr` stands for the source's
`'syntax'`, `undef` for `'undefined'`, `typeErr` for `'type'`. -/
inductive ErrType where
  | synErr
  | typeErr
  | undef
  | linker
  | other
deriving DecidableEq

/-- Keywords whose presence classifies a message as a syntax error. -/
def syntaxKeywords : List String :=
  ["expected", "syntax", "missing", "before", "after"]

/-- Keywords for the undefined-identifier category. -/
def undefinedKeywords : List String :=
  ["not declared", "undefined", "was not declared", "has not been declared"]

/-- Keywords for the type-error category. -/
def typeKeywords : List String :=
  ["does not name a type", "cannot convert", "invalid conversion",
   "no match for", "cannot initialize", "incompatible types"]

/-- Keywords for the linker-error category. -/
def linkerKeywords : List String :=
  ["undefined reference", "linker", "ld returned"]

/-- `keys.any (lower.includes ·)` — the disjunction of `includes` checks
that each branch of `categorizeErrorType` performs. -/
def containsAny (s : String) (keys : List String) : Bool :=
  keys.any (fun k => strContains s k)

/-- `categorizeErrorType` from `errorParser.ts`: lowercases the message and
tests the keyword groups in order syntax, undefined, type, linker, other. -/
def categorizeErrorType (message : String) : ErrType :=
  let lower := toLowerStr message
  if containsAny lower syntaxKeywords then .synErr
  else if containsAny lower undefinedKeywords then .undef
  else if containsAny lower typeKeywords then .typeErr
  else if containsAny lower linkerKeywords then .linker
  else .other

/-! ## errorParser.ts — `parseCompilerError`

The source matches each trimmed line against the regex
`^(\d+)?(\w+\.cpp):(\d+)(?::(\d+))?:\s*(error|warning):\s*(.+)$`.
The embedding below replicates its backtracking semantics: the optional
digit prefix is greedy (longest cut first, then absent), the optional
column group is tried with-column first, and the final `\s*(.+)$` gives
back one whitespace character when the tail is all whitespace. -/

/-- Consume a case-sensitive literal at the head of `s`. -/
def dropLit (pat s : List Char) : Option (List Char) :=
  match pat, s with
  | [], s => some s
  | _ :: _, [] => none
  | p :: ps, c :: cs => if p = c then dropLit ps cs else none

/-- Match `:\s*(error|warning):\s*(.+)$`; returns the raw message capture. -/
def errAfterCol (s : List Char) : Option String :=
  match s with
  | ':' :: r =>
    let r1 := r.dropWhile isSpaceChar
    let afterKw :=
      match dropLit "error:".data r1 with
      | some x => some x
      | none => dropLit "warning:".data r1
    match afterKw with
    | none => none
    | some rest =>
      let k := (rest.takeWhile isSpaceChar).length
      if (rest.drop k).isEmpty then
        if 0 < k then some ⟨rest.drop (k - 1)⟩ else none
      else some ⟨rest.drop k⟩
  | _ => none

/-- Match `(?::(\d+))?` followed by `errAfterCol`; greedy, so the
with-column alternative is attempted first. -/
def errAfterLine (s : List Char) : Option (Option String × String) :=
  let withCol :=
    match s with
    | ':' :: r =>
      let (ds, r4) := takeDigits r
      if ds.isEmpty then none
      else (errAfterCol r4).map (fun m => (some (String.mk ds), m))
    | _ => none
  match withCol with
  | some r => some r
  | none => (errAfterCol s).map (fun m => ((none : Option String), m))

/-- Match `:(\d+)` then the rest of the pattern; returns
(line digits, column digits?, message). -/
def errAfterFile (s : List Char) : Option (String × Option String × String) :=
  match s with
  | ':' :: r =>
    let (ds, r3) := takeDigits r
    if ds.isEmpty then none
    else (errAfterLine r3).map (fun (c, m) => (String.mk ds, c, m))
  | _ => none

/-- Match `(\w+\.cpp)` then the rest, at a fixed start position.
`\w+` is a maximal word run (it cannot contain the following dot, so no
further backtracking arises). -/
def errAtPrefixCut (r0 : List Char) : Option (String × String × Option String × String) :=
  let w := r0.takeWhile isWordChar
  if w.isEmpty then none
  else
    match dropLit ".cpp".data (r0.drop w.length) with
    | none => none
    | some r2 =>
      (errAfterFile r2).map (fun (l, c, m) => (String.mk (w ++ ".cpp".data), l, c, m))

/-- Try digit-prefix cuts of length `n, n-1, …, 1, 0` (greedy `(\d+)?`). -/
def errLineMatchAux (line : List Char) : Nat → Option (String × String × Option String × String)
  | 0 => errAtPrefixCut line
  | n + 1 =>
    match errAtPrefixCut (line.drop (n + 1)) with
    | some r => some r
    | none => errLineMatchAux line n

/-- Full-line match of the compiler-diagnostic regex; returns
(file, line digits, column digits?, raw message capture). -/
def errLineMatch (line : List Char) : Option (String × String × Option String × String) :=
  errLineMatchAux line (line.takeWhile isDigitChar).length

/-- The `ParsedError` record from `errorParser.ts`. -/
structure ParsedError where
  file : String
  line : Nat
  column : Option Nat
  type : ErrType
  message : String
  rawError : String
  codeSnippet : Option String
deriving DecidableEq

/-- `/^\s+\^/` or `/^\s+\|/`: at least one leading whitespace character
followed by the marker `c`. -/
def startsWsThen (c : Char) (s : List Char) : Bool :=
  let k := (s.takeWhile isSpaceChar).length
  decide (0 < k) &&
    (match s.drop k with
     | x :: _ => x = c
     | [] => false)

/-- Look ahead up to two raw (untrimmed) lines for a code-context line:
one containing the line-number digits, a caret line, or a pipe line. -/
def findSnippet (lineDigits : String) : List String → Option String
  | [] => none
  | l :: rest =>
    if strContains l lineDigits || startsWsThen '^' l.data || startsWsThen '|' l.data then
      some (trimStr l)
    else findSnippet lineDigits rest

/-- Loop body of `parseCompilerError` over the raw line list. -/
def parseCompilerErrorGo : List String → List ParsedError
  | [] => []
  | l :: rest =>
    let line := trimStr l
    if line.length = 0 then parseCompilerErrorGo rest
    else
      match errLineMatch line.data with
      | some (file, lineDigits, colDigits, message) =>
        { file := file
          line := digitsToNat lineDigits.data
          column := colDigits.map (fun d => digitsToNat d.data)
          type := categorizeErrorType message
          message := trimStr message
          rawError := line
          codeSnippet := findSnippet lineDigits (rest.take 2) } :: parseCompilerErrorGo rest
      | none =>
        if strContains line "undefined reference" then
          { file := "linker", line := 0, column := none, type := .linker,
            message := line, rawError := line, codeSnippet := none } :: parseCompilerErrorGo rest
        else if strContains line "collect2:" || strContains line "ld returned" then
          { file := "linker", line := 0, column := none, type := .linker,
            message := line, rawError := line, codeSnippet := none } :: parseCompilerErrorGo rest
        else parseCompilerErrorGo rest

/-- `parseCompilerError` from `errorParser.ts`. -/
def parseCompilerError (errorText : String) : List ParsedError :=
  if errorText.length = 0 || (trimStr errorText).length = 0 then []
  else parseCompilerErrorGo (splitLinesStr errorText)

/-! ## testClassifier.ts — `parseTestOutput`

Embeds the regex-driven extraction of the summary line
`/Summary:\s*(\d+)\/(\d+)\s+tests\s+passed/i`, the global per-case scan
`/Test Case (\d+)[^\n]*:\s*(PASSED|FAILED)/gi`, and the lazy detail
regexes applied to the text from each match onward.  All matchers follow
the JS leftmost-match discipline; greedy pieces try longest first, lazy
pieces shortest first. -/

/-- Attempt the summary pattern at a fixed position. -/
def summaryAt (s : List Char) : Option (Nat × Nat) :=
  match dropLitCI "summary:".data s with
  | none => none
  | some r0 =>
    let r1 := r0.dropWhile isSpaceChar
    let (d1, r2) := takeDigits r1
    if d1.isEmpty then none
    else
      match r2 with
      | '/' :: r3 =>
        let (d2, r4) := takeDigits r3
        if d2.isEmpty then none
        else
          let k := (r4.takeWhile isSpaceChar).length
          if k = 0 then none
          else
            match dropLitCI "tests".data (r4.drop k) with
            | none => none
            | some r5 =>
              let k2 := (r5.takeWhile isSpaceChar).length
              if k2 = 0 then none
              else
                match dropLitCI "passed".data (r5.drop k2) with
                | none => none
                | some _ => some (digitsToNat d1, digitsToNat d2)
      | _ => none

/-- Leftmost match of the summary pattern (JS `String.prototype.match`). -/
def findSummary : List Char → Option (Nat × Nat)
  | [] => none
  | c :: rest =>
    match summaryAt (c :: rest) with
    | some r => some r
    | none => findSummary rest

/-- At cut `k` of the `[^\n]*` run: match `:\s*(PASSED|FAILED)` (CI).
Returns (failed?, rest after the status word). -/
def tcStatusAt (r1 : List Char) (k : Nat) : Option (Bool × List Char) :=
  match r1.drop k with
  | ':' :: r2 =>
    let r3 := r2.dropWhile isSpaceChar
    match dropLitCI "passed".data r3 with
    | some rest => some (false, rest)
    | none =>
      match dropLitCI "failed".data r3 with
      | some rest => some (true, rest)
      | none => none
  | _ => none

/-- Greedy `[^\n]*`: try the longest cut first, down to the empty cut. -/
def tcTryCuts (r1 : List Char) : Nat → Option (Bool × List Char)
  | 0 => tcStatusAt r1 0
  | k + 1 =>
    match tcStatusAt r1 (k + 1) with
    | some r => some r
    | none => tcTryCuts r1 k

/-- Attempt `Test Case (\d+)[^\n]*:\s*(PASSED|FAILED)` at a fixed
position; returns (case number, failed?, rest after the match). -/
def tcMatchAt (s : List Char) : Option (Nat × Bool × List Char) :=
  match dropLitCI "test case ".data s with
  | none => none
  | some r0 =>
    let (ds, r1) := takeDigits r0
    if ds.isEmpty then none
    else
      let lineLen := (r1.takeWhile (fun c => c ≠ '\n')).length
      (tcTryCuts r1 lineLen).map (fun p => (digitsToNat ds, p.1, p.2))

/-- Global scan (`exec` loop with `lastIndex`): collect every
non-overlapping match left to right as (case number, failed?, match
start index).  The fuel argument only bounds recursion; started at
`length + 1` it never runs out because every step consumes input. -/
def scanTestCases : Nat → List Char → Nat → List (Nat × Bool × Nat)
  | 0, _, _ => []
  | _ + 1, [], _ => []
  | fuel + 1, c :: rest, pos =>
    match tcMatchAt (c :: rest) with
    | some (n, failed, after) =>
      (n, failed, pos) :: scanTestCases fuel after (pos + ((c :: rest).length - after.length))
    | none => scanTestCases fuel rest (pos + 1)

/-- Does one of the stop alternatives (or, when allowed, the end of
input) match at this position?  Stops are matched case-insensitively,
as the `/i` flag covers the whole pattern. -/
def stopsMatch (stops : List (List Char)) (allowEnd : Bool) (s : List Char) : Bool :=
  stops.any (fun st => (dropLitCI st s).isSome) || (allowEnd && s.isEmpty)

/-- Lazy `(.+?)` followed by a stop alternative: grow the group one
non-newline character at a time, checking the stop after each step. -/
def lazyGo (stops : List (List Char)) (allowEnd : Bool) :
    List Char → List Char → Option (List Char)
  | pre, [] => if stopsMatch stops allowEnd [] then some pre.reverse else none
  | pre, c :: rs =>
    if stopsMatch stops allowEnd (c :: rs) then some pre.reverse
    else if c = '\n' then none
    else lazyGo stops allowEnd (c :: pre) rs

/-- Start the lazy group: it needs at least one non-newline character. -/
def lazyStart (stops : List (List Char)) (allowEnd : Bool) : List Char → Option (List Char)
  | [] => none
  | c :: rs => if c = '\n' then none else lazyGo stops allowEnd [c] rs

/-- Greedy `\s*` before the lazy group: try the maximal whitespace run
first, giving characters back one at a time on failure. -/
def detailWsLoop (r0 : List Char) (stops : List (List Char)) (allowEnd : Bool) :
    Nat → Option (List Char)
  | 0 => lazyStart stops allowEnd r0
  | w + 1 =>
    match lazyStart stops allowEnd (r0.drop (w + 1)) with
    | some g => some g
    | none => detailWsLoop r0 stops allowEnd w

/-- Attempt `LEAD\s*(.+?)(?:stop₁|stop₂|…)` at a fixed position. -/
def detailAt (lead : List Char) (stops : List (List Char)) (allowEnd : Bool)
    (s : List Char) : Option (List Char) :=
  match dropLitCI lead s with
  | none => none
  | some r0 => detailWsLoop r0 stops allowEnd ((r0.takeWhile isSpaceChar).length)

/-- Leftmost match of a detail pattern; returns the trimmable capture. -/
def detailMatch (lead : String) (stops : List String) (allowEnd : Bool) :
    List Char → Option String
  | [] => none
  | c :: rest =>
    match detailAt lead.data (stops.map String.data) allowEnd (c :: rest) with
    | some g => some ⟨g⟩
    | none => detailMatch lead stops allowEnd rest

/-- One element of `failures` in `parseTestOutput`'s result. -/
structure TestFailure where
  testIndex : Int
  input : String
  expected : String
  actual : String
  error : Option String
deriving DecidableEq

/-- The record returned by `parseTestOutput`. -/
structure ParsedTests where
  passed : Int
  total : Int
  failures : List TestFailure
deriving DecidableEq

/-- Build one failure entry: the detail regexes run on
`output.substring(match.index)`. -/
def mkFailure (outChars : List Char) (n : Nat) (idx : Nat) : TestFailure :=
  let testSection := outChars.drop idx
  let inputM := detailMatch "input:" ["\n", "expected:"] false testSection
  let expectedM := detailMatch "expected:" ["\n", "output:"] false testSection
  let outputM := detailMatch "output:" ["\n", "----------------"] true testSection
  let exceptionM := detailMatch "exception:" ["\n", "input:"] false testSection
  { testIndex := (n : Int) - 1
    input := (inputM.map trimStr).getD "Unknown"
    expected := (expectedM.map trimStr).getD "Unknown"
    actual := (outputM.map trimStr).getD "No output"
    error := exceptionM.map trimStr }

/-- `parseTestOutput` from `testClassifier.ts`. -/
def parseTestOutput (output : String) : ParsedTests :=
  let chars := output.data
  let pt : Int × Int :=
    match findSummary chars with
    | some (p, t) => ((p : Int), (t : Int))
    | none => (0, 0)
  let ms := scanTestCases (chars.length + 1) chars 0
  let failures := ms.filterMap (fun m => if m.2.1 then some (mkFailure chars m.1 m.2.2) else none)
  if pt.2 = 0 ∧ 0 < failures.length then
    match failures.map (fun f => f.testIndex) with
    | [] => { passed := pt.1, total := pt.2, failures := failures }
    | x :: xs =>
      let mx := xs.foldl max x
      { passed := (mx + 1) - (failures.length : Int), total := mx + 1, failures := failures }
  else { passed := pt.1, total := pt.2, failures := failures }

/-! ## testClassifier.ts — `classifyTestResults`

`ExecutionResult` is produced by the Docker execution service (not part
of the classifier).  The classifier accesses only `output`, `errors` and
`exitCode`, guarding each against `undefined` (`result.errors || ''`,
`result.exitCode !== undefined`), so those three fields are modelled as
`Option`s; `undefined`/missing is `none` and JS string falsiness is
`none` or `some ""`. -/

/-- The fields of `ExecutionResult` read by the classifier. -/
structure ExecutionResult where
  output : Option String
  errors : Option String
  exitCode : Option Int
deriving DecidableEq

/-- `TestResultCategory` from `testClassifier.ts`. -/
inductive TestResultCategory where
  | SYNTAX_ERROR
  | RUNTIME_ERROR
  | WRONG_ANSWER
  | NO_ISSUES
deriving DecidableEq

/-- `TestExecutionResult` from `testClassifier.ts`; absent optional
fields are `none`. -/
structure TestExecutionResult where
  category : TestResultCategory
  compilationErrors : Option String := none
  runtimeErrors : Option String := none
  testResults : Option ParsedTests := none
  output : Option String := none
  exitCode : Option Int := none
deriving DecidableEq

/-- The compiler/linker signatures searched for in lowercased `errors`. -/
def hasCompilationErrorSignature (errs : String) : Bool :=
  let errors := toLowerStr errs
  strContains errors "error:" ||
  strContains errors "undefined reference" ||
  strContains errors "collect2:" ||
  strContains errors "ld returned" ||
  strContains errors "cannot find" ||
  strContains errors "no such file" ||
  strContains errors "multiple definition"

/-- The classifier's first check:
`result.errors && result.errors.trim().length > 0 && hasCompilationErrors`. -/
def syntaxHit (r : ExecutionResult) : Bool :=
  match r.errors with
  | some e => e != "" && decide (0 < (trimStr e).length) && hasCompilationErrorSignature e
  | none => false

/-- `runtimeExitCodes = [139, 11, 134, 136]`. -/
def runtimeExitCodes : List Int := [139, 11, 134, 136]

/-- `result.exitCode !== undefined && runtimeExitCodes.includes(result.exitCode)`. -/
def isRuntimeExitCode (r : ExecutionResult) : Bool :=
  match r.exitCode with
  | some c => runtimeExitCodes.contains c
  | none => false

/-- `result.exitCode !== 0` — true for `undefined` as well. -/
def exitNeZero (r : ExecutionResult) : Bool :=
  r.exitCode != some 0

/-- The crash-indicator substrings searched in lowercased error and
output text. -/
def runtimeErrorIndicators : List String :=
  ["segmentation fault", "segfault", "terminate called", "exception",
   "abort", "signal", "floating point exception", "double free", "corruption"]

/-- `runtimeErrorIndicators.some(ind => errorText.includes(ind) || outputText.includes(ind))`. -/
def hasRuntimeErrorInText (r : ExecutionResult) : Bool :=
  let errorText := toLowerStr (r.errors.getD "")
  let outputText := toLowerStr (r.output.getD "")
  runtimeErrorIndicators.any (fun ind => strContains errorText ind || strContains outputText ind)

/-- JS string interpolation of a possibly-undefined exit code. -/
def showExitCode (c : Option Int) : String :=
  match c with
  | some n => toString n
  | none => "undefined"

/-- JS `a || b` on an optional string: the fallback when falsy. -/
def jsOrStr (o : Option String) (d : String) : String :=
  match o with
  | some s => if s = "" then d else s
  | none => d

/-- JS falsiness of `result.errors` (`!result.errors`). -/
def errFalsy (o : Option String) : Bool :=
  match o with
  | some s => s == ""
  | none => true

/-- Lowercased output text used by the later checks. -/
def outputLowerOf (r : ExecutionResult) : String :=
  toLowerStr (r.output.getD "")

/-- The exception markers searched in lowercased output. -/
def hasExceptionInOutput (r : ExecutionResult) : Bool :=
  let outputLower := outputLowerOf r
  strContains outputLower "exception:" ||
  strContains outputLower "failed (exception" ||
  strContains outputLower "terminate called" ||
  strContains outputLower "std::exception"

/-- The pure classification logic of `classifyTestResults`, applied to
the `ExecutionResult` obtained from the Docker run (source lines 52-170). -/
def classifyFromResult (r : ExecutionResult) : TestExecutionResult :=
  if syntaxHit r then
    { category := .SYNTAX_ERROR, compilationErrors := r.errors, exitCode := r.exitCode }
  else if isRuntimeExitCode r || (exitNeZero r && hasRuntimeErrorInText r) then
    { category := .RUNTIME_ERROR
      runtimeErrors := some (jsOrStr r.errors ("Program crashed with exit code " ++ showExitCode r.exitCode))
      output := r.output, exitCode := r.exitCode }
  else
    let testResults := parseTestOutput (r.output.getD "")
    if hasExceptionInOutput r then
      { category := .RUNTIME_ERROR
        runtimeErrors := some "Runtime exception detected in test output"
        output := r.output, exitCode := r.exitCode }
    else if exitNeZero r && testResults.total == 0 && errFalsy r.errors &&
        decide (0 < (outputLowerOf r).length) && !(strContains (outputLowerOf r) "test case") then
      { category := .RUNTIME_ERROR
        runtimeErrors := some ("Program exited with code " ++ showExitCode r.exitCode ++ " before completing tests")
        output := r.output, exitCode := r.exitCode }
    else if testResults.passed == testResults.total && decide ((0 : Int) < testResults.total) then
      { category := .NO_ISSUES, testResults := some testResults
        output := r.output, exitCode := r.exitCode }
    else if decide (0 < testResults.failures.length) then
      { category := .WRONG_ANSWER, testResults := some testResults
        output := r.output, exitCode := r.exitCode }
    else
      { category := .NO_ISSUES, output := r.output, exitCode := r.exitCode }

/-- A value thrown by an internal step: either a JS `Error` object with a
message, or any other thrown value. -/
inductive ThrownValue where
  | errObj (msg : String)
  | nonError
deriving DecidableEq

/-- `error instanceof Error ? error.message : 'Unknown error'`. -/
def thrownMessage : ThrownValue → String
  | .errObj m => m
  | .nonError => "Unknown error"

/-- The environment of one `classifyTestResults` call: the outcome of
each awaited internal step (temp-dir creation, code preparation, Docker
execution), each of which either returns or throws. -/
structure RunEnv where
  createTempDir : Except ThrownValue String
  prepareCode : Except ThrownValue Unit
  executeCode : Except ThrownValue ExecutionResult

/-- The `catch` clause of `classifyTestResults`. -/
def catchClause (e : ThrownValue) : TestExecutionResult :=
  { category := .SYNTAX_ERROR, compilationErrors := some (thrownMessage e) }

/-- The first exception raised by the sequential steps, if any. -/
def firstThrown (env : RunEnv) : Option ThrownValue :=
  match env.createTempDir with
  | .error e => some e
  | .ok _ =>
    match env.prepareCode with
    | .error e => some e
    | .ok _ =>
      match env.executeCode with
      | .error e => some e
      | .ok _ => none

/-- `classifyTestResults`: run the three steps in order inside
`try … catch`, classifying the execution result on success and mapping
any thrown value through the catch clause. -/
def classifyTestResults (env : RunEnv) : TestExecutionResult :=
  match env.createTempDir with
  | .error e => catchClause e
  | .ok _ =>
    match env.prepareCode with
    | .error e => catchClause e
    | .ok _ =>
      match env.executeCode with
      | .error e => catchClause e
      | .ok r => classifyFromResult r

/-! ## codeWrapper.ts — harness generation and code preparation -/

/-- The full-suite harness `TEST_CASES_SNIPPET` (template literal with
`.trim()` applied, as in the source). -/
def TEST_CASES_SNIPPET : String :=
  "#include <iostream>\n" ++
  "#include <vector>\n" ++
  "#include <string>\n" ++
  "#include <algorithm>\n" ++
  "#include <stdexcept>\n" ++
  "#include <exception>\n" ++
  "#include <sstream>\n" ++
  "\n" ++
  "using namespace std;\n" ++
  "\n" ++
  "#include \"solution.hpp\"\n" ++
  "\n" ++
  "struct TestCase \x7b\n" ++
  "  vector<int> nums;\n" ++
  "  int target;\n" ++
  "  vector<int> expected;\n" ++
  "  string label;\n" ++
  "\x7d;\n" ++
  "\n" ++
  "vector<TestCase> getDefaultTestCases() \x7b\n" ++
  "  return \x7b\n" ++
  "    \x7b\x7b2, 7, 11, 15\x7d, 9, \x7b0, 1\x7d, \"Example 1\"\x7d,\n" ++
  "    \x7b\x7b3, 2, 4\x7d, 6, \x7b1, 2\x7d, \"Example 2\"\x7d,\n" ++
  "    \x7b\x7b3, 3\x7d, 6, \x7b0, 1\x7d, \"Example 3\"\x7d\n" ++
  "  \x7d;\n" ++
  "\x7d\n" ++
  "\n" ++
  "string vectorToString(const vector<int>& values) \x7b\n" ++
  "  if (values.empty()) \x7b\n" ++
  "    return \"[]\";\n" ++
  "  \x7d\n" ++
  "  ostringstream oss;\n" ++
  "  oss << \"[\";\n" ++
  "  for (size_t i = 0; i < values.size(); ++i) \x7b\n" ++
  "    oss << values[i];\n" ++
  "    if (i + 1 < values.size()) \x7b\n" ++
  "      oss << \", \";\n" ++
  "    \x7d\n" ++
  "  \x7d\n" ++
  "  oss << \"]\";\n" ++
  "  return oss.str();\n" ++
  "\x7d\n" ++
  "\n" ++
  "string formatInput(const vector<int>& nums, int target) \x7b\n" ++
  "  ostringstream oss;\n" ++
  "  oss << \"nums = \" << vectorToString(nums) << \", target = \" << target;\n" ++
  "  return oss.str();\n" ++
  "\x7d\n" ++
  "\n" ++
  "bool arraysEqualUnordered(vector<int> a, vector<int> b) \x7b\n" ++
  "  if (a.size() != b.size()) \x7b\n" ++
  "    return false;\n" ++
  "  \x7d\n" ++
  "  sort(a.begin(), a.end());\n" ++
  "  sort(b.begin(), b.end());\n" ++
  "  return a == b;\n" ++
  "\x7d\n" ++
  "\n" ++
  "int main() \x7b\n" ++
  "  ios::sync_with_stdio(false);\n" ++
  "  cin.tie(nullptr);\n" ++
  "\n" ++
  "  vector<TestCase> testCases = getDefaultTestCases();\n" ++
  "  Solution solution;\n" ++
  "  int passed = 0;\n" ++
  "\n" ++
  "  for (size_t i = 0; i < testCases.size(); ++i) \x7b\n" ++
  "    const auto& test = testCases[i];\n" ++
  "    vector<int> numsCopy = test.nums;\n" ++
  "    cout << \"Test Case \" << (i + 1) << \" - \" << test.label << \": \";\n" ++
  "    bool passedCase = false;\n" ++
  "    vector<int> actual;\n" ++
  "    bool executed = false;\n" ++
  "\n" ++
  "    try \x7b\n" ++
  "      actual = solution.twoSum(numsCopy, test.target);\n" ++
  "      executed = true;\n" ++
  "      passedCase = arraysEqualUnordered(actual, test.expected);\n" ++
  "      cout << (passedCase ? \"PASSED\" : \"FAILED\") << \"\\n\";\n" ++
  "    \x7d catch (const exception& ex) \x7b\n" ++
  "      cout << \"FAILED (exception: \" << ex.what() << \")\\n\";\n" ++
  "    \x7d catch (...) \x7b\n" ++
  "      cout << \"FAILED (unknown exception)\\n\";\n" ++
  "    \x7d\n" ++
  "\n" ++
  "    cout << \"  Input:     \" << formatInput(test.nums, test.target) << \"\\n\";\n" ++
  "    cout << \"  Expected:  \" << vectorToString(test.expected) << \"\\n\";\n" ++
  "    if (executed) \x7b\n" ++
  "      cout << \"  Output:    \" << vectorToString(actual) << \"\\n\";\n" ++
  "    \x7d\n" ++
  "    cout << \"-----------------------------\\n\";\n" ++
  "\n" ++
  "    if (passedCase) \x7b\n" ++
  "      passed++;\n" ++
  "    \x7d\n" ++
  "  \x7d\n" ++
  "\n" ++
  "  cout << \"Summary: \" << passed << \"/\" << testCases.size() << \" tests passed.\" << \"\\n\";\n" ++
  "  if (passed == static_cast<int>(testCases.size())) \x7b\n" ++
  "    cout << \"All tests passed!\\n\";\n" ++
  "    return 0;\n" ++
  "  \x7d\n" ++
  "\n" ++
  "  cout << \"Some tests failed.\\n\";\n" ++
  "  return 1;\n" ++
  "\x7d"

/-- One row of the fixed built-in test table. -/
structure TestCaseSpec where
  nums : List Int
  target : Int
  expected : List Int
  label : String
deriving DecidableEq

/-- The fixed 3-case table from `generateSingleTestHarness`. -/
def singleTestCases : List TestCaseSpec :=
  [{ nums := [2, 7, 11, 15], target := 9, expected := [0, 1], label := "Example 1" },
   { nums := [3, 2, 4], target := 6, expected := [1, 2], label := "Example 2" },
   { nums := [3, 3], target := 6, expected := [0, 1], label := "Example 3" }]

/-- The single-test harness template (trimmed), with holes for
`numsStr` and `test.target`; `expectedStr` is computed by the source but
never substituted into the template. -/
def singleTestHarnessTemplate (numsStr targetStr : String) : String :=
  "#include <iostream>\n" ++
  "#include <vector>\n" ++
  "#include <string>\n" ++
  "#include <algorithm>\n" ++
  "#include <sstream>\n" ++
  "\n" ++
  "using namespace std;\n" ++
  "\n" ++
  "#include \"solution.hpp\"\n" ++
  "\n" ++
  "string vectorToString(const vector<int>& values) \x7b\n" ++
  "  if (values.empty()) \x7b\n" ++
  "    return \"[]\";\n" ++
  "  \x7d\n" ++
  "  ostringstream oss;\n" ++
  "  oss << \"[\";\n" ++
  "  for (size_t i = 0; i < values.size(); ++i) \x7b\n" ++
  "    oss << values[i];\n" ++
  "    if (i + 1 < values.size()) \x7b\n" ++
  "      oss << \", \";\n" ++
  "    \x7d\n" ++
  "  \x7d\n" ++
  "  oss << \"]\";\n" ++
  "  return oss.str();\n" ++
  "\x7d\n" ++
  "\n" ++
  "int main() \x7b\n" ++
  "  ios::sync_with_stdio(false);\n" ++
  "  cin.tie(nullptr);\n" ++
  "  \n" ++
  "  Solution solution;\n" ++
  "  vector<int> nums = " ++
  numsStr ++
  ";\n" ++
  "  int target = " ++
  targetStr ++
  ";\n" ++
  "  \n" ++
  "  // Mark start of console output (before calling user\x27s function)\n" ++
  "  cout << \"CONSOLE_START\\n\";\n" ++
  "  cout.flush();\n" ++
  "  \n" ++
  "  // Call user\x27s function (this will capture all their cout statements)\n" ++
  "  vector<int> result = solution.twoSum(nums, target);\n" ++
  "  \n" ++
  "  // Mark end of console output and start of return value\n" ++
  "  cout << \"CONSOLE_END\\n\";\n" ++
  "  cout.flush();\n" ++
  "  cout << \"RETURN_VALUE:\" << vectorToString(result) << \"\\n\";\n" ++
  "  cout.flush();\n" ++
  "  \n" ++
  "  return 0;\n" ++
  "\x7d"

/-- `MAIN_DETECTION_REGEX = /\bint\s+main\s*\(/` — attempt at one
position (the word boundary is checked by the caller). -/
def intMainAt (s : List Char) : Bool :=
  match dropLit "int".data s with
  | none => false
  | some r0 =>
    let k := (r0.takeWhile isSpaceChar).length
    if k = 0 then false
    else
      match dropLit "main".data (r0.drop k) with
      | none => false
      | some r1 =>
        match r1.dropWhile isSpaceChar with
        | '(' :: _ => true
        | _ => false

/-- Scan for a match of the main-detection regex, tracking the previous
character for the `\b` word-boundary test. -/
def hasUserMainGo : Option Char → List Char → Bool
  | _, [] => false
  | prev, c :: rest =>
    let boundaryOk :=
      match prev with
      | none => true
      | some p => !isWordChar p
    (boundaryOk && intMainAt (c :: rest)) || hasUserMainGo (some c) rest

/-- `MAIN_DETECTION_REGEX.test(userCode)`. -/
def hasUserMain (code : String) : Bool :=
  hasUserMainGo none code.data

/-- Placeholder test case for the (never-reached) out-of-bounds default
of `List.getD`; the source indexes `testCases[testIndex]` only after a
bounds check. -/
def defaultCase : TestCaseSpec :=
  { nums := [], target := 0, expected := [], label := "" }

/-- `` `{${test.nums.join(', ')}}` `` — the brace-wrapped nums literal. -/
def numsLiteral (t : TestCaseSpec) : String :=
  "\x7b" ++ String.intercalate ", " (t.nums.map toString) ++ "\x7d"

/-- `generateSingleTestHarness` from `codeWrapper.ts`. -/
def generateSingleTestHarness (testIndex : Int) : String :=
  let test :=
    if 0 ≤ testIndex ∧ testIndex < 3 then singleTestCases.getD testIndex.toNat defaultCase
    else singleTestCases.getD 0 defaultCase
  singleTestHarnessTemplate (numsLiteral test) (toString test.target)

/-- `PreparedCodeResult` from `codeWrapper.ts`; `filesForErrors` is the
record's entries in insertion order. -/
structure PreparedCodeResult where
  mainFilePath : String
  filesForErrors : List (String × String)
  usedHarness : Bool
deriving DecidableEq

/-- `prepareCodeForExecution`'s observable behavior: the files it writes
(path, content, in write order) plus its return value. -/
structure PrepareOutcome where
  writtenFiles : List (String × String)
  result : PreparedCodeResult
deriving DecidableEq

/-- `path.join` for one directory and one file name (POSIX). -/
def pathJoin (a b : String) : String :=
  a ++ "/" ++ b

/-- `prepareCodeForExecution` from `codeWrapper.ts`. -/
def prepareCodeForExecution (dirPath userCode : String) (testIndex : Option Int) : PrepareOutcome :=
  if hasUserMain userCode then
    let mainPath := pathJoin dirPath "main.cpp"
    { writtenFiles := [(mainPath, userCode)]
      result := { mainFilePath := mainPath
                  filesForErrors := [("main.cpp", userCode)]
                  usedHarness := false } }
  else
    let trimmedUserCode := if 0 < (trimStr userCode).length then trimStr userCode ++ "\n" else ""
    let solutionPath := pathJoin dirPath "solution.hpp"
    let harnessCode :=
      match testIndex with
      | some i => generateSingleTestHarness i
      | none => TEST_CASES_SNIPPET
    let mainPath := pathJoin dirPath "main.cpp"
    { writtenFiles := [(solutionPath, trimmedUserCode), (mainPath, harnessCode ++ "\n")]
      result := { mainFilePath := mainPath
                  filesForErrors := [("solution.hpp", trimmedUserCode), ("main.cpp", harnessCode)]
                  usedHarness := true } }

/-- Content of the file written at `name`, if any. -/
def lookupFile (files : List (String × String)) (name : String) : Option String :=
  (files.find? (fun p => p.1 == name)).map (fun p => p.2)

/-- The harness text contains `CONSOLE_START`, the single `twoSum` call,
`CONSOLE_END` and `RETURN_VALUE:` in that order. -/
def markerOrderOk (t : String) : Bool :=
  match occIdx t "CONSOLE_START", occIdx t "solution.twoSum(nums, target)",
        occIdx t "CONSOLE_END", occIdx t "RETURN_VALUE:" with
  | some a, some b, some c, some d => decide (a < b) && decide (b < c) && decide (c < d)
  | _, _, _, _ => false

/-! ## Supporting lemmas -/

theorem isPrefixOf_trans {p q s : List Char} (h1 : p.isPrefixOf q = true)
    (h2 : q.isPrefixOf s = true) : p.isPrefixOf s = true := by
  induction p generalizing q s with
  | nil => simp [List.isPrefixOf]
  | cons a as ih =>
    cases q with
    | nil => simp [List.isPrefixOf] at h1
    | cons b bs =>
      cases s with
      | nil => simp [List.isPrefixOf] at h2
      | cons c cs =>
        simp only [List.isPrefixOf, Bool.and_eq_true, beq_iff_eq] at h1 h2 ⊢
        exact ⟨h1.1.trans h2.1, ih h1.2 h2.2⟩

theorem hasSub_mono {s p1 p2 : List Char} (hp : p1.isPrefixOf p2 = true)
    (h : hasSub s p2 = true) : hasSub s p1 = true := by
  induction s with
  | nil =>
    simp [hasSub] at h ⊢
    subst h
    cases p1 with
    | nil => rfl
    | cons a as => simp [List.isPrefixOf] at hp
  | cons c rest ih =>
    simp only [hasSub, Bool.or_eq_true] at h ⊢
    rcases h with h | h
    · exact Or.inl (isPrefixOf_trans hp h)
    · exact Or.inr (ih h)

theorem strContains_of_prefix {s p1 p2 : String} (hp : p1.data.isPrefixOf p2.data = true)
    (h : strContains s p2 = true) : strContains s p1 = true :=
  hasSub_mono hp h

theorem syntaxHit_of_errFalsy {r : ExecutionResult} (h : errFalsy r.errors = true) :
    syntaxHit r = false := by
  cases herr : r.errors with
  | none => simp [syntaxHit, herr]
  | some e =>
    rw [herr] at h
    simp [errFalsy] at h
    simp [syntaxHit, herr, h]

/-! ## Claims -/

set_option maxRecDepth 100000

/-- C1: for every `ExecutionResult` whose `errors` field is non-blank and
contains a compiler/linker signature, `classifyTestResults` returns
category `SYNTAX_ERROR` with `compilationErrors` set to that errors text,
regardless of every other field — in particular even when `output`
contains a fully-passing `Summary:` line — so the `SYNTAX_ERROR` check
has strictly higher priority than every other classification rule. -/
theorem classify_syntax_error_priority (r : ExecutionResult) (e : String)
    (herr : r.errors = some e) (htrim : 0 < (trimStr e).length)
    (hsig : hasCompilationErrorSignature e = true) :
    classifyFromResult r =
      { category := .SYNTAX_ERROR, compilationErrors := some e, exitCode := r.exitCode } := by
  have hne : e ≠ "" := by
    intro h
    subst h
    exact absurd htrim (by decide)
  have hsh : syntaxHit r = true := by
    simp [syntaxHit, herr, hne, htrim, hsig]
  simp [classifyFromResult, hsh, herr]

/-- Witness for C1: a compile error in `errors` wins even though `output`
reports every test as passing. -/
theorem classify_syntax_error_priority_witness :
    classifyFromResult
      { output := some "Summary: 3/3 tests passed.\n",
        errors := some "main.cpp:1:1: error: x", exitCode := some 0 } =
      { category := .SYNTAX_ERROR, compilationErrors := some "main.cpp:1:1: error: x",
        exitCode := some 0 } :=
  classify_syntax_error_priority _ _ rfl (by decide) (by decide)

/-- C2: `classifyTestResults` always resolves; whenever any internal step
(temp-dir creation, preparation, execution) throws, the result has
category `SYNTAX_ERROR` and `compilationErrors` equal to the thrown
`Error`'s message, or `"Unknown error"` for a non-`Error` thrown value. -/
theorem classify_never_throws (env : RunEnv) (e : ThrownValue)
    (h : firstThrown env = some e) :
    classifyTestResults env =
      { category := .SYNTAX_ERROR, compilationErrors := some (thrownMessage e) } := by
  unfold classifyTestResults
  unfold firstThrown at h
  cases h1 : env.createTempDir with
  | error e1 =>
    rw [h1] at h
    simp at h
    subst h
    rfl
  | ok a =>
    rw [h1] at h
    cases h2 : env.prepareCode with
    | error e2 =>
      rw [h2] at h
      simp at h
      subst h
      rfl
    | ok b =>
      rw [h2] at h
      cases h3 : env.executeCode with
      | error e3 =>
        rw [h3] at h
        simp at h
        subst h
        rfl
      | ok r =>
        rw [h3] at h
        simp at h

/-- Witness for C2: a throwing first step maps to `SYNTAX_ERROR` carrying
the exception message. -/
theorem classify_never_throws_witness :
    classifyTestResults
      { createTempDir := Except.error (ThrownValue.errObj "Docker daemon unreachable"),
        prepareCode := Except.ok (),
        executeCode := Except.ok { output := none, errors := none, exitCode := none } } =
      { category := .SYNTAX_ERROR, compilationErrors := some "Docker daemon unreachable" } :=
  classify_never_throws _ (ThrownValue.errObj "Docker daemon unreachable") rfl

/-- C3 counterexample: a message containing `undefined reference` (and no
syntax keyword) is categorized `undefined`, not `linker`, because the
undefined-category check (`includes('undefined')`) runs first. -/
theorem categorize_undefined_reference_cex :
    categorizeErrorType "undefined reference to foo" ≠ ErrType.linker ∧
    categorizeErrorType "undefined reference to foo" = ErrType.undef := by
  decide

/-- C3 amended: the categorizer tests keyword groups in priority order
syntax → undefined → type → linker → other, where the undefined group
also contains `was not declared`/`has not been declared` and the type
group also contains `cannot initialize`; consequently every message
containing `undefined reference` (and no syntax keyword) is categorized
`undefined`, and the linker category is reached only by messages
containing `linker` or `ld returned` with no earlier-group keyword. -/
theorem categorize_priority_table (m : String) :
    (containsAny (toLowerStr m) syntaxKeywords = true →
      categorizeErrorType m = .synErr) ∧
    (containsAny (toLowerStr m) syntaxKeywords = false →
      containsAny (toLowerStr m) undefinedKeywords = true →
      categorizeErrorType m = .undef) ∧
    (containsAny (toLowerStr m) syntaxKeywords = false →
      containsAny (toLowerStr m) undefinedKeywords = false →
      containsAny (toLowerStr m) typeKeywords = true →
      categorizeErrorType m = .typeErr) ∧
    (containsAny (toLowerStr m) syntaxKeywords = false →
      containsAny (toLowerStr m) undefinedKeywords = false →
      containsAny (toLowerStr m) typeKeywords = false →
      containsAny (toLowerStr m) linkerKeywords = true →
      categorizeErrorType m = .linker) ∧
    (containsAny (toLowerStr m) syntaxKeywords = false →
      containsAny (toLowerStr m) undefinedKeywords = false →
      containsAny (toLowerStr m) typeKeywords = false →
      containsAny (toLowerStr m) linkerKeywords = false →
      categorizeErrorType m = .other) ∧
    (strContains (toLowerStr m) "undefined reference" = true →
      containsAny (toLowerStr m) syntaxKeywords = false →
      categorizeErrorType m = .undef) := by
  refine ⟨?_, ?_, ?_, ?_, ?_, ?_⟩
  · intro h1
    simp [categorizeErrorType, h1]
  · intro h1 h2
    simp [categorizeErrorType, h1, h2]
  · intro h1 h2 h3
    simp [categorizeErrorType, h1, h2, h3]
  · intro h1 h2 h3 h4
    simp [categorizeErrorType, h1, h2, h3, h4]
  · intro h1 h2 h3 h4
    simp [categorizeErrorType, h1, h2, h3, h4]
  · intro hur h1
    have hu : strContains (toLowerStr m) "undefined" = true :=
      strContains_of_prefix (by decide) hur
    have h2 : containsAny (toLowerStr m) undefinedKeywords = true := by
      simp [containsAny, undefinedKeywords]
      exact Or.inr (Or.inl hu)
    simp [categorizeErrorType, h1, h2]

/-- Witness for C3 (amended): a linker-style message lands in the
undefined category. -/
theorem categorize_priority_table_witness :
    categorizeErrorType "undefined reference to bar" = ErrType.undef :=
  (categorize_priority_table "undefined reference to bar").2.2.2.2.2 (by decide) (by decide)

/-- C4 counterexample: `errors` holding only a warning blocks the
no-summary runtime-error rule (`!result.errors` fails), so the claimed
input is classified `NO_ISSUES`, not `RUNTIME_ERROR`. -/
theorem classify_no_summary_warnings_cex :
    (classifyFromResult
      { output := some "hello world", errors := some "warning: unused variable x",
        exitCode := some 1 }).category = TestResultCategory.NO_ISSUES ∧
    (classifyFromResult
      { output := some "hello world", errors := some "warning: unused variable x",
        exitCode := some 1 }).category ≠ TestResultCategory.RUNTIME_ERROR := by
  decide

/-- C4 amended: for every `ExecutionResult` with an empty or absent
`errors` field, a nonzero exit code outside the crash set, no
crash-indicator or exception text, zero parsed tests, and non-empty
output that does not contain `test case`, `classifyTestResults` returns
category `RUNTIME_ERROR`. -/
theorem classify_runtime_error_no_summary (r : ExecutionResult) (c : Int) (out : String)
    (hexit : r.exitCode = some c) (hc0 : c ≠ 0)
    (hcrash : c ∉ runtimeExitCodes)
    (herr : errFalsy r.errors = true)
    (hind : hasRuntimeErrorInText r = false)
    (hexc : hasExceptionInOutput r = false)
    (hout : r.output = some out)
    (htot : (parseTestOutput out).total = 0)
    (hlen : 0 < (toLowerStr out).length)
    (htc : strContains (toLowerStr out) "test case" = false) :
    (classifyFromResult r).category = TestResultCategory.RUNTIME_ERROR := by
  have hsyn : syntaxHit r = false := syntaxHit_of_errFalsy herr
  have hrc : isRuntimeExitCode r = false := by
    simp [isRuntimeExitCode, hexit]
    exact hcrash
  have hnz : exitNeZero r = true := by
    simp [exitNeZero, hexit, hc0]
  have holow : outputLowerOf r = toLowerStr out := by
    simp [outputLowerOf, hout]
  simp [classifyFromResult, hsyn, hrc, hind, hexc, hnz, herr, hout, htot, holow, hlen, htc]

/-- Witness for C4 (amended): exit 1 with junk output and no errors text
is a runtime error. -/
theorem classify_runtime_error_no_summary_witness :
    (classifyFromResult
      { output := some "hello", errors := none, exitCode := some 1 }).category =
      TestResultCategory.RUNTIME_ERROR :=
  classify_runtime_error_no_summary _ 1 "hello" rfl (by decide) (by decide) (by decide)
    (by decide) (by decide) rfl (by decide) (by decide) (by decide)

/-- C5: every exit code in the crash set {139, 11, 134, 136} forces
category `RUNTIME_ERROR` (never `NO_ISSUES`) whenever the `SYNTAX_ERROR`
check has not fired — in particular for exit 139 with empty errors and
unparseable output. -/
theorem classify_crash_exit_codes (r : ExecutionResult) (c : Int)
    (hexit : r.exitCode = some c) (hmem : c ∈ runtimeExitCodes)
    (hsyn : syntaxHit r = false) :
    (classifyFromResult r).category = TestResultCategory.RUNTIME_ERROR := by
  have hrc : isRuntimeExitCode r = true := by
    simp [isRuntimeExitCode, hexit, hmem]
  simp [classifyFromResult, hsyn, hrc]

/-- Witness for C5: exit code 139, empty stderr, no parseable summary. -/
theorem classify_crash_exit_codes_witness :
    (classifyFromResult
      { output := some "", errors := some "", exitCode := some 139 }).category =
      TestResultCategory.RUNTIME_ERROR :=
  classify_crash_exit_codes _ 139 rfl (by decide) (by decide)

/-- C6: parsing the single diagnostic line
`main.cpp:5:10: error: expected ';' before '}'` yields exactly one
`ParsedError` with file `main.cpp`, line 5, column 10, the syntax
category, and the message text (`synErr` embeds the source's
`'syntax'` tag). -/
theorem parse_compiler_error_round_trip :
    parseCompilerError "main.cpp:5:10: error: expected \x27;\x27 before \x27\x7d\x27" =
      [{ file := "main.cpp", line := 5, column := some 10, type := ErrType.synErr,
         message := "expected \x27;\x27 before \x27\x7d\x27",
         rawError := "main.cpp:5:10: error: expected \x27;\x27 before \x27\x7d\x27",
         codeSnippet := none }] := by
  decide

/-- C7 counterexample: `filesForErrors` does not contain exactly the
written `main.cpp` content — the file on disk ends with a newline that
the map entry lacks. -/
theorem prepare_files_for_errors_cex :
    lookupFile (prepareCodeForExecution "/ws" "class Solution \x7b\x7d;" none).writtenFiles
        "/ws/main.cpp" = some (TEST_CASES_SNIPPET ++ "\n") ∧
    lookupFile (prepareCodeForExecution "/ws" "class Solution \x7b\x7d;" none).result.filesForErrors
        "main.cpp" = some TEST_CASES_SNIPPET ∧
    TEST_CASES_SNIPPET ++ "\n" ≠ TEST_CASES_SNIPPET := by
  refine ⟨rfl, rfl, ?_⟩
  intro h
  have hlen := congrArg String.length h
  rw [String.length_append, show ("\n" : String).length = 1 from rfl] at hlen
  omega

/-- C7 amended: for every source lacking a top-level entry point,
`prepareCodeForExecution` returns `usedHarness = true`, writes
`solution.hpp` with the trimmed input plus a terminating newline (empty
content when the input trims to empty), and writes `main.cpp` with the
harness plus a trailing newline, while `filesForErrors` maps
`solution.hpp` to the written content and `main.cpp` to the harness text
without that trailing newline. -/
theorem prepare_harness_files (dir code : String) (h : hasUserMain code = false) :
    (prepareCodeForExecution dir code none).result.usedHarness = true ∧
    (prepareCodeForExecution dir code none).writtenFiles =
      [(pathJoin dir "solution.hpp",
        if 0 < (trimStr code).length then trimStr code ++ "\n" else ""),
       (pathJoin dir "main.cpp", TEST_CASES_SNIPPET ++ "\n")] ∧
    (prepareCodeForExecution dir code none).result.filesForErrors =
      [("solution.hpp",
        if 0 < (trimStr code).length then trimStr code ++ "\n" else ""),
       ("main.cpp", TEST_CASES_SNIPPET)] := by
  refine ⟨?_, ?_, ?_⟩ <;> simp [prepareCodeForExecution, h]

/-- Witness for C7 (amended): a class-only fragment gets the harness and
a newline-terminated `solution.hpp`. -/
theorem prepare_harness_files_witness :
    (prepareCodeForExecution "/ws" "class Solution \x7b\x7d;" none).result.usedHarness = true ∧
    (prepareCodeForExecution "/ws" "class Solution \x7b\x7d;" none).writtenFiles =
      [(pathJoin "/ws" "solution.hpp",
        if 0 < (trimStr "class Solution \x7b\x7d;").length
        then trimStr "class Solution \x7b\x7d;" ++ "\n" else ""),
       (pathJoin "/ws" "main.cpp", TEST_CASES_SNIPPET ++ "\n")] ∧
    (prepareCodeForExecution "/ws" "class Solution \x7b\x7d;" none).result.filesForErrors =
      [("solution.hpp",
        if 0 < (trimStr "class Solution \x7b\x7d;").length
        then trimStr "class Solution \x7b\x7d;" ++ "\n" else ""),
       ("main.cpp", TEST_CASES_SNIPPET)] :=
  prepare_harness_files "/ws" "class Solution \x7b\x7d;" (by decide)

/-- C8: for every `testIndex` in {0, 1, 2}, the single-test harness
embeds exactly the table entry at that index (its nums literal and its
target, and no other entry's nums literal), and its text contains
`CONSOLE_START`, the single `twoSum` call, `CONSOLE_END` and a
`RETURN_VALUE:` output statement in that order. -/
theorem single_harness_embeds_case (i : Int) (h : i = 0 ∨ i = 1 ∨ i = 2) :
    strContains (generateSingleTestHarness i)
      ("vector<int> nums = " ++
        numsLiteral (singleTestCases.getD i.toNat defaultCase) ++ ";") = true ∧
    strContains (generateSingleTestHarness i)
      ("int target = " ++ toString (singleTestCases.getD i.toNat defaultCase).target ++ ";") =
      true ∧
    markerOrderOk (generateSingleTestHarness i) = true ∧
    (∀ j : Nat, j < 3 → j ≠ i.toNat →
      strContains (generateSingleTestHarness i)
        (numsLiteral (singleTestCases.getD j defaultCase)) = false) := by
  rcases h with h | h | h <;> subst h <;> exact ⟨by decide, by decide, by decide, by decide⟩

/-- Witness for C8: instantiated at index 1. -/
theorem single_harness_embeds_case_witness :
    strContains (generateSingleTestHarness 1)
      ("vector<int> nums = " ++
        numsLiteral (singleTestCases.getD (1 : Int).toNat defaultCase) ++ ";") = true ∧
    strContains (generateSingleTestHarness 1)
      ("int target = " ++
        toString (singleTestCases.getD (1 : Int).toNat defaultCase).target ++ ";") = true ∧
    markerOrderOk (generateSingleTestHarness 1) = true ∧
    (∀ j : Nat, j < 3 → j ≠ (1 : Int).toNat →
      strContains (generateSingleTestHarness 1)
        (numsLiteral (singleTestCases.getD j defaultCase)) = false) :=
  single_harness_embeds_case 1 (Or.inr (Or.inl rfl))

/-- C9: an out-of-range `testIndex` (negative or ≥ 3) never fails:
`prepareCodeForExecution` behaves exactly as with `testIndex = 0`, the
generated harness silently falling back to table entry 0. -/
theorem prepare_out_of_range_test_index (dir code : String) (i : Int)
    (h : i < 0 ∨ 3 ≤ i) :
    prepareCodeForExecution dir code (some i) = prepareCodeForExecution dir code (some 0) := by
  have hg : generateSingleTestHarness i = generateSingleTestHarness 0 := by
    unfold generateSingleTestHarness
    have hcond : ¬(0 ≤ i ∧ i < 3) := by omega
    simp [hcond]
  by_cases hm : hasUserMain code <;> simp [prepareCodeForExecution, hm, hg]

/-- Witness for C9: index 5 falls back to index 0. -/
theorem prepare_out_of_range_test_index_witness :
    prepareCodeForExecution "/ws" "class Solution \x7b\x7d;" (some 5) =
      prepareCodeForExecution "/ws" "class Solution \x7b\x7d;" (some 0) :=
  prepare_out_of_range_test_index "/ws" "class Solution \x7b\x7d;" 5 (by omega)

/-- C10: when the parsed output reports `passed = total = N > 0` (a
fully-passing `Summary:` line), the classifier returns `NO_ISSUES` even
when per-case `FAILED` lines put entries into `failures`: the
passed-equals-total check runs before the non-empty-failures check. -/
theorem classify_summary_precedence (r : ExecutionResult) (out : String) (n : Int)
    (hsyn : syntaxHit r = false)
    (hcrash : isRuntimeExitCode r = false)
    (hind : hasRuntimeErrorInText r = false)
    (hexc : hasExceptionInOutput r = false)
    (hout : r.output = some out)
    (hp : (parseTestOutput out).passed = n)
    (ht : (parseTestOutput out).total = n)
    (hn : 0 < n) :
    (classifyFromResult r).category = TestResultCategory.NO_ISSUES := by
  have hn0 : n ≠ 0 := by omega
  simp [classifyFromResult, hsyn, hcrash, hind, hexc, hout, hp, ht, hn, hn0]

/-- Witness for C10: output with a contradictory `FAILED` line but a
fully-passing summary is classified `NO_ISSUES`, with one recorded
failure. -/
theorem classify_summary_precedence_witness :
    (parseTestOutput "Test Case 1 - Example 1: FAILED\nSummary: 2/2 tests passed.\n").failures.length = 1 ∧
    (classifyFromResult
      { output := some "Test Case 1 - Example 1: FAILED\nSummary: 2/2 tests passed.\n",
        errors := none, exitCode := some 0 }).category = TestResultCategory.NO_ISSUES :=
  ⟨by decide,
   classify_summary_precedence _ "Test Case 1 - Example 1: FAILED\nSummary: 2/2 tests passed.\n" 2
     (by decide) (by decide) (by decide) (by decide) rfl (by decide) (by decide) (by decide)⟩

end Socrates
